import Mathlib

/-!
Shallow embedding of the per-user quiz state machine of `quiz-bot.py`:
the delivery routine `send_quiz_auto`, the answer handler `check_answer`,
the timeout watchdog `handle_timeout_check` / `handle_timeout`, the
post-answer dispatcher `wait_and_send_next`, the manual next-question
button branch, the scheduler loop body `quiz_scheduler`, the schedule
starter `start_quiz_schedule`, and the settings loader
`load_user_settings`.  All definitions are translated from the Python
source; global dictionaries keyed by user id are modelled as the per-user
state `BotState` (the claims under study are all per-user), with each
dictionary's `.get` default folded in.  Wall-clock time (`time.time()`)
is an integer number of seconds (every quantity the claims mention is a
whole number of seconds); time-of-day (`datetime.time`) is minutes since
midnight.  Python string primitives (`strip`, `lower`, `split`, `int`)
are given structural list-based implementations so that all definitions
evaluate by kernel reduction.
-/

namespace QuizBot

/-- Python exception kinds relevant to the embedded code.  The settings
loader catches exactly `json.JSONDecodeError` and `ValueError`; every
other kind propagates. -/
inductive PyError where
  | attributeError
  | keyError
  | typeError
  | indexError
  | valueError
  | jsonDecodeError
deriving DecidableEq, Repr

/-- One row of the user's spreadsheet: the `Kanji`, `Reading` and
`Meaning` columns read by `send_quiz_auto`. -/
structure Record where
  kanji : String
  reading : String
  meaning : String
deriving DecidableEq, Repr

/-- The `user_quiz[user_id]` entry: field names follow the dict keys
`"kanji"`, `"reading"`, `"meaning"`, `"type"`, `"start_time"`. -/
structure QuizSession where
  kanji : String
  reading : String
  meaning : String
  type : String
  start_time : ℤ
deriving DecidableEq, Repr

/-- The `user_sheets[user_id]` value when the key is present: `broken`
models the `None` stored by `load_user_settings` when reconnection to the
spreadsheet failed (calling `get_all_records()` on it raises
`AttributeError`); `sheet data` models a live handle whose
`get_all_records()` returns `data`. -/
inductive SheetRef where
  | broken
  | sheet (data : List Record)
deriving DecidableEq, Repr

/-- Per-user slice of the module-level dictionaries.  `Option` encodes
key absence; for `user_quiz_active` (default `True`), `user_next_quiz_sent`
and `user_timeouts_active` (default `False`) the `.get` default is folded
into a plain `Bool`. -/
structure BotState where
  /-- `user_sheets` entry (`none` = key absent). -/
  sheets : Option SheetRef
  /-- `user_intervals` entry, minutes. -/
  intervals : Option ℕ
  /-- `user_preferences` entry, a mode string set by the `mode_*` buttons. -/
  preferences : Option String
  /-- `user_quiet_intervals` entry, (start, end) in minutes since midnight. -/
  quietInterval : Option (ℕ × ℕ)
  /-- `user_timeouts` entry, minutes. -/
  timeouts : Option ℕ
  /-- `user_quiz` entry: the live question, if any. -/
  quiz : Option QuizSession
  /-- `user_timeouts_active.get(user_id, False)`. -/
  timeoutsActive : Bool
  /-- `user_quiz_active.get(user_id, True)`. -/
  quizActive : Bool
  /-- `user_next_quiz_sent.get(user_id, False)`. -/
  nextQuizSent : Bool
  /-- `last_quiz_sent` entry: wall-clock time of the last delivery. -/
  lastQuizSent : Option ℤ
deriving DecidableEq, Repr

/-- User-visible messages sent by the embedded fragments (localization
text abstracted to its key; log lines are not messages). -/
inductive Msg where
  | sheetNotSet
  | sheetEmpty
  | readingQuestion (kanji : String)
  | meaningQuestion (kanji : String)
  | timeoutMessage (answer : String)
  | correctAnswerMessage
  | incorrectAnswerMessage
  | noActiveQuiz
  | quizStart (interval : ℕ)
  | setIntervalFirst
deriving DecidableEq, Repr

/-- Ambient nondeterminism consumed by one call into the code:
`now` is `time.time()`, `pickIdx` resolves `random.choice(data)`
(index modulo length), `coinReading` resolves
`random.choice(["reading", "meaning"])`. -/
structure Env where
  now : ℤ
  pickIdx : ℕ
  coinReading : Bool
deriving DecidableEq, Repr

/-- `SEND_QUIZ_COOLDOWN = 5` (seconds). -/
def SEND_QUIZ_COOLDOWN : ℤ := 5

/-- `str.strip()` on a character list: drop whitespace from both ends. -/
def stripList (l : List Char) : List Char :=
  ((l.dropWhile Char.isWhitespace).reverse.dropWhile Char.isWhitespace).reverse

/-- `str.strip()`. -/
def pyStrip (s : String) : String := String.mk (stripList s.data)

/-- `str.lower()`. -/
def pyLower (s : String) : String := String.mk (s.data.map Char.toLower)

/-- Helper of `pySplitChar`: accumulate the current piece (reversed). -/
def splitListAux (sep : Char) : List Char → List Char → List (List Char)
  | [], acc => [acc.reverse]
  | c :: rest, acc =>
    if c = sep then acc.reverse :: splitListAux sep rest []
    else splitListAux sep rest (c :: acc)

/-- `str.split(sep)` for a one-character separator. -/
def pySplitChar (sep : Char) (s : String) : List String :=
  (splitListAux sep s.data []).map String.mk

/-- Decimal digits to a natural number. -/
def digitsToNat (l : List Char) : ℕ :=
  l.foldl (fun n c => n * 10 + (c.toNat - '0'.toNat)) 0

/-- How one call to `send_quiz_auto` ended. -/
inductive SendOutcome where
  /-- `not user_quiz_active.get(user_id, True)`: silent return. -/
  | skippedInactive
  /-- `user_id in user_quiz`: silent return. -/
  | skippedActiveQuiz
  /-- cooldown guard hit: silent return. -/
  | skippedCooldown
  /-- `user_id not in user_sheets`: `sheet_not_set` reported. -/
  | noSheet
  /-- `get_all_records()` returned no rows: `sheet_empty` reported. -/
  | emptySheet
  /-- a question was sent; `q` is the created session. -/
  | delivered (q : QuizSession)
  /-- an uncaught exception escaped (e.g. `AttributeError` from a `None`
  sheet handle). -/
  | crash (e : PyError)
deriving DecidableEq, Repr

/-- Result of `send_quiz_auto`: final state, messages sent, outcome, and
the duration (seconds) of a freshly submitted `handle_timeout_check`
task, if one was spawned. -/
structure SendResult where
  state : BotState
  msgs : List Msg
  outcome : SendOutcome
  watchdog : Option ℕ
deriving DecidableEq, Repr

/-- `send_quiz_auto(user_id)` (quiz-bot.py lines 332-375), translated
guard by guard in source order. -/
def send_quiz_auto (env : Env) (s : BotState) : SendResult :=
  if ¬ s.quizActive then ⟨s, [], .skippedInactive, none⟩
  else if s.quiz.isSome then ⟨s, [], .skippedActiveQuiz, none⟩
  else if haveLast : s.lastQuizSent.isSome then
    if env.now - (s.lastQuizSent.get haveLast) < SEND_QUIZ_COOLDOWN then
      ⟨s, [], .skippedCooldown, none⟩
    else send_quiz_auto.afterCooldown env s
  else send_quiz_auto.afterCooldown env s
where
  /-- The part of `send_quiz_auto` after the three silent guards. -/
  afterCooldown (env : Env) (s : BotState) : SendResult :=
    match s.sheets with
    | none => ⟨s, [.sheetNotSet], .noSheet, none⟩
    | some .broken => ⟨s, [], .crash .attributeError, none⟩
    | some (.sheet data) =>
      if data.isEmpty then ⟨s, [.sheetEmpty], .emptySheet, none⟩
      else
        let kanji_entry := data.getD (env.pickIdx % data.length) ⟨"", "", ""⟩
        let qt0 := s.preferences.getD "random"
        let question_type :=
          if qt0 = "random" then (if env.coinReading then "reading" else "meaning")
          else qt0
        let q : QuizSession :=
          ⟨kanji_entry.kanji, kanji_entry.reading, kanji_entry.meaning,
           question_type, env.now⟩
        let msg :=
          if question_type = "reading" then Msg.readingQuestion kanji_entry.kanji
          else Msg.meaningQuestion kanji_entry.kanji
        let s1 := { s with quiz := some q, lastQuizSent := some env.now }
        let timeout_value := s.timeouts.getD 1
        if timeout_value > 0 ∧ ¬ s.timeoutsActive then
          ⟨{ s1 with timeoutsActive := true }, [msg], .delivered q,
           some (timeout_value * 60)⟩
        else ⟨s1, [msg], .delivered q, none⟩

/-- `quiz_data[key]` for the three string-valued keys used as
`quiz_data[quiz_data["type"]]`; any other key raises `KeyError`
(`none`). -/
def fieldOf (q : QuizSession) (key : String) : Option String :=
  if key = "kanji" then some q.kanji
  else if key = "reading" then some q.reading
  else if key = "meaning" then some q.meaning
  else none

/-- Result of `handle_timeout`: final state, messages, the nested
`send_quiz_auto` result when a session was resolved, and whether a
`KeyError` escaped. -/
structure TimeoutResult where
  state : BotState
  msgs : List Msg
  send : Option SendResult
  crashed : Bool
deriving DecidableEq, Repr

/-- `handle_timeout(user_id)` (lines 388-400): reveal the answer, delete
the session, clear `user_timeouts_active`, `time.sleep(2)`, then call
`send_quiz_auto`.  The inner call runs 2 seconds later, hence
`env.now + 2`. -/
def handle_timeout (env : Env) (s : BotState) : TimeoutResult :=
  match s.quiz with
  | none => ⟨s, [], none, false⟩
  | some q =>
    match fieldOf q q.type with
    | none => ⟨s, [], none, true⟩
    | some correct_answer =>
      let s1 := { s with quiz := none, timeoutsActive := false }
      let r := send_quiz_auto { env with now := env.now + 2 } s1
      ⟨r.state, Msg.timeoutMessage correct_answer :: r.msgs, some r, false⟩

/-- `wait_and_send_next(user_id, delay)` (lines 402-410), observed at its
wake-up instant (`env.now` = schedule time + delay): if the
`user_next_quiz_sent` flag is still clear, set it and deliver. -/
def wait_and_send_next (env : Env) (s : BotState) : BotState × Option SendResult :=
  if ¬ s.nextQuizSent then
    let r := send_quiz_auto env { s with nextQuizSent := true }
    (r.state, some r)
  else (s, none)

/-- The `next_question` branch of `handle_command_click` (lines 179-183):
the manual next-question button, same flag-guarded dispatch as
`wait_and_send_next`. -/
def handle_next_question_click (env : Env) (s : BotState) : BotState × Option SendResult :=
  if ¬ s.nextQuizSent then
    let r := send_quiz_auto env { s with nextQuizSent := true }
    (r.state, some r)
  else (s, none)

/-- Result of `check_answer`: final state, messages, whether the reply
was correct, the `delay` handed to `executor.submit(wait_and_send_next,
user_id, delay)` when it was, and whether a `KeyError` escaped. -/
structure AnswerResult where
  state : BotState
  msgs : List Msg
  correct : Bool
  nextDelay : Option ℤ
  crashed : Bool
deriving DecidableEq, Repr

/-- `check_answer(message)` (lines 412-450).  `user_response =
message.text.strip().lower()`; accepted answers are the comma-split,
stripped pieces of the lowercased field selected by the session's
`type`. -/
def check_answer (env : Env) (text : String) (s : BotState) : AnswerResult :=
  match s.quiz with
  | none => ⟨s, [.noActiveQuiz], false, none, false⟩
  | some quiz_data =>
    match fieldOf quiz_data quiz_data.type with
    | none => ⟨s, [], false, none, true⟩
    | some raw =>
      let user_response := pyLower (pyStrip text)
      let correct_answers := (pySplitChar ',' (pyLower raw)).map pyStrip
      if user_response ∈ correct_answers then
        let s1 := { s with quiz := none, timeoutsActive := false,
                           nextQuizSent := false }
        let timeout_value := s.timeouts.getD 1
        let delay : ℤ :=
          if timeout_value = 0 then 2
          else
            let elapsed := env.now - quiz_data.start_time
            let d := (timeout_value : ℤ) * 60 - elapsed
            if d < 0 then 0 else d
        ⟨s1, [.correctAnswerMessage], true, some delay, false⟩
      else ⟨s, [.incorrectAnswerMessage], false, none, false⟩

/-- How one `handle_timeout_check` task ended. -/
inductive WatchdogResult where
  /-- some 1-second poll saw `user_id not in user_quiz`: cancelled
  (clearing `user_timeouts_active`) at poll `i`. -/
  | cancelledAt (i : ℕ)
  /-- the final check passed and `handle_timeout` ran, with result `t`. -/
  | fired (t : TimeoutResult)
  /-- the final check failed: silent no-op. -/
  | noFire
deriving DecidableEq, Repr

/-- First poll index `i ∈ [1..timeout]` at which the user had no live
session, if any. -/
def firstCancelPoll (timeout : ℕ) (observe : ℕ → BotState) : Option ℕ :=
  ((List.range timeout).map (fun i => i + 1)).find?
    (fun i => ((observe i).quiz).isNone)

/-- `handle_timeout_check(user_id, timeout)` (lines 377-386).  The task
knows only the user id and the duration; `observe i` is the shared
per-user state it reads after its `i`-th one-second sleep (`observe 0` is
the state when the task was submitted).  Each poll tests only
`user_id not in user_quiz`; the final check tests `user_id in user_quiz
and user_timeouts_active.get(user_id, False)` on the state after the last
sleep and, if it passes, runs `handle_timeout` there. -/
def handle_timeout_check (env : Env) (timeout : ℕ) (observe : ℕ → BotState) :
    WatchdogResult :=
  match firstCancelPoll timeout observe with
  | some i => .cancelledAt i
  | none =>
    let sF := observe timeout
    if sF.quiz.isSome ∧ sF.timeoutsActive then .fired (handle_timeout env sF)
    else .noFire

/-- How `start_quiz_schedule` ended. -/
inductive StartResult where
  /-- `user_id not in user_intervals`: only `set_interval_first` is sent. -/
  | noInterval
  /-- interval set: `quiz_start` sent; `spawned` is whether
  `executor.submit(quiz_scheduler, ...)` ran (a new concurrent scheduler
  loop now exists). -/
  | started (spawned : Bool)
deriving DecidableEq, Repr

/-- `start_quiz_schedule(user_id)` (lines 265-272): submits a new
`quiz_scheduler` task whenever an interval is set and `user_id not in
user_quiz`; it consults no record of already-running loops. -/
def start_quiz_schedule (s : BotState) : BotState × StartResult × List Msg :=
  match s.intervals with
  | some interval => (s, .started s.quiz.isNone, [.quizStart interval])
  | none => (s, .noInterval, [.setIntervalFirst])

/-- The `quiz` button branch of `handle_command_click` (lines 160-162):
`user_quiz_active[user_id] = True` then `start_quiz_schedule`. -/
def handle_command_quiz (s : BotState) : BotState × StartResult × List Msg :=
  start_quiz_schedule { s with quizActive := true }

/-- The quiet-window test of `quiz_scheduler` (lines 316-327), on
minutes-since-midnight: when `quiet_start ≤ quiet_end` quiet holds for
`quiet_start ≤ now ≤ quiet_end`, otherwise (window wraps midnight) for
`now ≥ quiet_start` or `now ≤ quiet_end`. -/
def quietHolds (quiet_start quiet_end nowTod : ℕ) : Bool :=
  if quiet_start ≤ quiet_end then
    decide (quiet_start ≤ nowTod ∧ nowTod ≤ quiet_end)
  else decide (nowTod ≥ quiet_start ∨ nowTod ≤ quiet_end)

/-- What one iteration of the `quiz_scheduler` loop body did. -/
inductive SchedStep where
  /-- `user_id in user_intervals` failed: the loop exits. -/
  | stopped
  /-- quiet window active: `time.sleep(pollSecs)` then `continue`,
  without calling `send_quiz_auto`. -/
  | quietWait (pollSecs : ℕ)
  /-- `send_quiz_auto` ran with result `r`, then `time.sleep(sleepSecs)`
  with `sleepSecs = interval * 60`. -/
  | ran (r : SendResult) (sleepSecs : ℕ)
deriving DecidableEq, Repr

/-- One iteration of `quiz_scheduler(user_id, interval)` (lines 310-330):
loop guard, quiet-window test on the current time of day, then either a
60-second quiet wait or a delivery attempt followed by the interval
sleep.  `interval` is the parameter captured at spawn time. -/
def quiz_scheduler_step (env : Env) (nowTod : ℕ) (interval : ℕ) (s : BotState) :
    BotState × SchedStep :=
  if s.intervals.isNone then (s, .stopped)
  else
    match s.quietInterval with
    | some (quiet_start, quiet_end) =>
      if quietHolds quiet_start quiet_end nowTod then (s, .quietWait 60)
      else
        let r := send_quiz_auto env s
        (r.state, .ran r (interval * 60))
    | none =>
      let r := send_quiz_auto env s
      (r.state, .ran r (interval * 60))

/-- Whether a delivery attempt ended in an uncaught exception. -/
def SendOutcome.isCrash : SendOutcome → Bool
  | .crash _ => true
  | _ => false
/-- Whether the scheduler loop proceeds to its next cycle after this
step: an uncaught exception from `send_quiz_auto` propagates out of
`quiz_scheduler` and kills the task (the `Future` is never inspected), so
the loop does not continue. -/
def stepContinues : SchedStep → Bool
  | .stopped => false
  | .quietWait _ => true
  | .ran r _ => ¬ r.outcome.isCrash

/-- JSON values, for the parsed contents of `user_settings.json`. -/
inductive Json where
  | null
  | bool (b : Bool)
  | num (n : Int)
  | str (s : String)
  | arr (xs : List Json)
  | obj (kvs : List (String × Json))

/-- `settings.get(key, {})`: dictionary lookup with an empty-dict
default; on a non-dict receiver Python raises `AttributeError`. -/
def dictGet (j : Json) (key : String) : Except PyError Json :=
  match j with
  | .obj kvs => .ok ((kvs.lookup key).getD (.obj []))
  | _ => .error .attributeError

/-- `.items()` on the value of a settings section; a non-dict value
raises `AttributeError`. -/
def items (j : Json) : Except PyError (List (String × Json)) :=
  match j with
  | .obj kvs => .ok kvs
  | _ => .error .attributeError

/-- `int(k)` on a JSON string key: optional sign, at least one digit,
surrounding whitespace allowed; anything else raises `ValueError`
(`none`). -/
def pyInt (s : String) : Option Int :=
  match stripList s.data with
  | [] => none
  | c :: rest =>
    if c = '-' ∨ c = '+' then
      if rest ≠ [] ∧ rest.all Char.isDigit then
        some (if c = '-' then -(digitsToNat rest : Int) else (digitsToNat rest : Int))
      else none
    else if (c :: rest).all Char.isDigit then some (digitsToNat (c :: rest) : Int)
    else none

/-- `v[i]` on a JSON value: list indexing (out of range raises
`IndexError`), string indexing yields the one-character string, any
other receiver raises `TypeError`. -/
def pyIndex (j : Json) (i : ℕ) : Except PyError Json :=
  match j with
  | .arr xs =>
    match xs.get? i with
    | some x => .ok x
    | none => .error .indexError
  | .str s =>
    match s.toList.get? i with
    | some c => .ok (.str (String.mk [c]))
    | none => .error .indexError
  | _ => .error .typeError

/-- `datetime.strptime(s, "%H:%M").time()` as minutes since midnight:
one or two digits for the hour, one or two for the minutes, in range;
anything else raises `ValueError` (`none`). -/
def parseHM (s : String) : Option ℕ :=
  match pySplitChar ':' s with
  | [h, m] =>
    if 1 ≤ h.data.length ∧ h.data.length ≤ 2 ∧ h.data.all Char.isDigit ∧
       1 ≤ m.data.length ∧ m.data.length ≤ 2 ∧ m.data.all Char.isDigit then
      let hv := digitsToNat h.data
      let mv := digitsToNat m.data
      if hv ≤ 23 ∧ mv ≤ 59 then some (hv * 60 + mv) else none
    else none
  | _ => none

/-- `datetime.strptime(x, "%H:%M")` on a JSON value: a non-string
receiver raises `TypeError`; a string that does not match raises
`ValueError`. -/
def strptimeHM (x : Json) : Except PyError ℕ :=
  match x with
  | .str s =>
    match parseHM s with
    | some t => .ok t
    | none => .error .valueError
  | _ => .error .typeError

/-- The in-memory per-user settings dictionaries touched by
`load_user_settings` / `save_user_settings`, as association lists keyed
by user id.  A `sheets` value of `none` is the `None` stored when
reconnection failed; a `some url` is a live handle, identified by its
URL. -/
structure Settings where
  preferences : List (Int × Json)
  intervals : List (Int × Json)
  timeouts : List (Int × Json)
  quiet_intervals : List (Int × ℕ × ℕ)
  sheets : List (Int × Option String)

/-- The empty defaults the module starts with. -/
def emptySettings : Settings := ⟨[], [], [], [], []⟩

/-- One of the three `{int(k): v for k, v in settings.get(name, {}).items()}`
comprehensions: a non-int key raises `ValueError` and the whole section
(hence the enclosing dict display) is discarded. -/
def intSection (j : Json) (name : String) : Except PyError (List (Int × Json)) := do
  let sec ← dictGet j name
  let kvs ← items sec
  kvs.foldlM (fun acc kv =>
    match pyInt kv.fst with
    | some ik => .ok (acc ++ [(ik, kv.snd)])
    | none => .error .valueError) []

/-- The `quiet_intervals` comprehension: for each entry, `int(k)`,
`strptime(v[0], "%H:%M")` and `strptime(v[1], "%H:%M")`. -/
def quietSection (j : Json) : Except PyError (List (Int × ℕ × ℕ)) := do
  let sec ← dictGet j "quiet_intervals"
  let kvs ← items sec
  kvs.foldlM (fun acc kv =>
    match pyInt kv.fst with
    | some ik => do
      let v0 ← pyIndex kv.snd 0
      let t0 ← strptimeHM v0
      let v1 ← pyIndex kv.snd 1
      let t1 ← strptimeHM v1
      .ok (acc ++ [(ik, t0, t1)])
    | none => .error .valueError) []

/-- One entry of the `sheets` reconnection loop (lines 97-102): the body
`user_sheets_temp[int(uid)] = client.open_by_url(sheet_url).sheet1` runs
under `except Exception`, which stores `None` via `int(uid)` again — so a
non-int key raises `ValueError` out of the handler, while any open
failure (bad URL value or `connect` refusing it) just marks the user
unavailable. -/
def sheetEntry (connect : String → Bool) (uid : String) (urlJ : Json) :
    Except PyError (Int × Option String) :=
  match pyInt uid with
  | none => .error .valueError
  | some ik =>
    match urlJ with
    | .str url => if connect url then .ok (ik, some url) else .ok (ik, none)
    | _ => .ok (ik, none)

/-- The whole `sheets` reconnection loop over
`settings.get("sheets", {})`. -/
def sheetsSection (connect : String → Bool) (j : Json) :
    Except PyError (List (Int × Option String)) := do
  let sec ← dictGet j "sheets"
  let kvs ← items sec
  kvs.foldlM (fun acc kv => do
    let e ← sheetEntry connect kv.fst kv.snd
    .ok (acc ++ [e])) []

/-- How `load_user_settings` ended. -/
inductive LoadResult where
  /-- file missing or empty: `save_user_settings()` persisted the current
  in-memory settings and the function returned. -/
  | createdNew (saved : Settings)
  /-- every section parsed: the globals now hold `g`. -/
  | loaded (g : Settings)
  /-- `json.JSONDecodeError` or `ValueError` was caught: the handler
  persisted the current in-memory settings (including any sections
  already reassigned before the error). -/
  | resetSaved (saved : Settings)
  /-- an exception outside `(json.JSONDecodeError, ValueError)`
  propagated out of `load_user_settings`. -/
  | crashed (e : PyError)

/-- The exception a crashed load propagated, if any. -/
def LoadResult.crashError : LoadResult → Option PyError
  | .crashed e => some e
  | _ => none

/-- The reconnected `user_sheets` dictionary of a fully successful load,
if any. -/
def LoadResult.loadedSheets : LoadResult → Option (List (Int × Option String))
  | .loaded g => some g.sheets
  | _ => none

/-- The settings persisted by the caught-corruption handler, if the load
took that path. -/
def LoadResult.resetSheets : LoadResult → Option (List (Int × Option String))
  | .resetSaved g => some g.sheets
  | _ => none

/-- Sizes of the persisted per-user dictionaries, to state that a save
wrote the empty defaults. -/
def Settings.sizes (g : Settings) : ℕ × ℕ × ℕ × ℕ × ℕ :=
  (g.preferences.length, g.intervals.length, g.timeouts.length,
   g.quiet_intervals.length, g.sheets.length)

/-- The sizes of the settings persisted by the caught-corruption
handler, if the load took that path. -/
def LoadResult.resetSizes : LoadResult → Option (ℕ × ℕ × ℕ × ℕ × ℕ)
  | .resetSaved g => some g.sizes
  | _ => none

/-- Shared error exit of the section chain: `ValueError` and
`json.JSONDecodeError` are caught and persist the current globals,
everything else crashes. -/
def loadError (g : Settings) (e : PyError) : LoadResult :=
  if e = .valueError ∨ e = .jsonDecodeError then .resetSaved g else .crashed e

/-- `load_user_settings()` (lines 78-107).  `file` is the observable
state of `user_settings.json`: `none` when missing or zero-sized,
`some none` when present but `json.load` raises `JSONDecodeError`,
`some (some j)` when it parses to `j`.  `g` is the current in-memory
settings (empty defaults at process start); `connect` tells whether
`client.open_by_url` succeeds for a URL.  Sections are reassigned one at
a time, in source order, so a caught error keeps the sections already
assigned and persists them. -/
def load_user_settings (file : Option (Option Json)) (g : Settings)
    (connect : String → Bool) : LoadResult :=
  match file with
  | none => .createdNew g
  | some none => .resetSaved g
  | some (some j) =>
    match intSection j "preferences" with
    | .error e => loadError g e
    | .ok prefs =>
      let g1 := { g with preferences := prefs }
      match intSection j "intervals" with
      | .error e => loadError g1 e
      | .ok ivs =>
        let g2 := { g1 with intervals := ivs }
        match intSection j "timeouts" with
        | .error e => loadError g2 e
        | .ok tos =>
          let g3 := { g2 with timeouts := tos }
          match quietSection j with
          | .error e => loadError g3 e
          | .ok qis =>
            let g4 := { g3 with quiet_intervals := qis }
            match sheetsSection connect j with
            | .error e => loadError g4 e
            | .ok shs => .loaded { g4 with sheets := shs }

/-! ## Concrete fixtures used by witnesses and counterexamples -/

/-- A one-row spreadsheet. -/
def recWater : Record := ⟨"水", "みず", "water"⟩

/-- A fully configured user with no live question: sheet set and
nonempty, interval 5, mode `reading`, timeout 1 minute, auto-send on,
nothing dispatched, no prior delivery. -/
def baseState : BotState :=
  { sheets := some (.sheet [recWater]), intervals := some 5,
    preferences := some "reading", quietInterval := none,
    timeouts := some 1, quiz := none, timeoutsActive := false,
    quizActive := true, nextQuizSent := false, lastQuizSent := none }

/-- A session created at time 40. -/
def sessionFire : QuizSession := ⟨"火", "ひ", "fire", "reading", 40⟩

/-- A later session of the same user, created at time 97. -/
def sessionWater97 : QuizSession := ⟨"水", "みず", "water", "reading", 97⟩

/-! ## Helper lemmas -/

/-- `send_quiz_auto` never touches the `user_next_quiz_sent` flag: it is
read and written only by `wait_and_send_next`, the `next_question`
button branch and `check_answer`. -/
theorem send_quiz_auto_nextQuizSent (env : Env) (s : BotState) :
    (send_quiz_auto env s).state.nextQuizSent = s.nextQuizSent := by
  unfold send_quiz_auto send_quiz_auto.afterCooldown
  split
  · rfl
  · split
    · rfl
    · split
      · split
        · rfl
        · split
          · rfl
          · rfl
          · dsimp only
            split
            · rfl
            · split
              · rfl
              · rfl
      · split
        · rfl
        · rfl
        · dsimp only
          split
          · rfl
          · split
            · rfl
            · rfl

/-- `start_quiz_schedule` mutates no per-user state: it only reports and
possibly submits a task. -/
theorem start_quiz_schedule_state (s : BotState) :
    (start_quiz_schedule s).1 = s := by
  unfold start_quiz_schedule
  split <;> rfl

/-! ## Claim theorems -/

/-- C6: for every correct answer, the delay handed to the scheduled
"deliver next" task equals `max(0, timeout_in_seconds − elapsed time
since the session was created)` when the configured timeout
(`user_timeouts.get(user_id, 1)`) is positive, and equals the fixed
2-second delay — in particular not zero, hence not synchronous — when
the configured timeout is 0. -/
theorem c6_correct_answer_delay (env : Env) (text : String) (s : BotState)
    (q : QuizSession) (hq : s.quiz = some q)
    (hcorrect : (check_answer env text s).correct = true) :
    (s.timeouts.getD 1 = 0 →
        (check_answer env text s).nextDelay = some 2 ∧ (2 : ℤ) ≠ 0) ∧
    (0 < s.timeouts.getD 1 →
        (check_answer env text s).nextDelay =
          some (max 0 ((s.timeouts.getD 1 : ℤ) * 60 - (env.now - q.start_time)))) := by
  rcases hf : fieldOf q q.type with _ | raw
  · simp [check_answer, hq, hf] at hcorrect
  · by_cases hm :
      pyLower (pyStrip text) ∈ (pySplitChar ',' (pyLower raw)).map pyStrip
    · constructor
      · intro h0
        refine ⟨?_, by decide⟩
        simp [check_answer, hq, hf, hm, h0]
      · intro hpos
        have hne : s.timeouts.getD 1 ≠ 0 := Nat.pos_iff_ne_zero.mp hpos
        rcases lt_or_ge ((s.timeouts.getD 1 : ℤ) * 60 - (env.now - q.start_time)) 0
          with hlt | hge
        · rw [max_eq_left hlt.le]
          simp [check_answer, hq, hf, hm, hne, hlt]
        · rw [max_eq_right hge]
          simp [check_answer, hq, hf, hm, hne, not_lt.mpr hge]
    · simp [check_answer, hq, hf, hm] at hcorrect

/-- C6 witness: at a concrete correct answer (`"ひ"` to `sessionFire`)
both branches of the theorem are exercised: with timeout 0 the delay is
the fixed 2 seconds; with timeout 1 minute, answered 10 seconds after
creation, the delay is `max 0 (60 − 10) = 50`. -/
theorem c6_correct_answer_delay_witness :
    (check_answer ⟨50, 0, true⟩ "ひ"
        { baseState with quiz := some sessionFire, timeouts := some 0 }).nextDelay
      = some 2 ∧
    (check_answer ⟨50, 0, true⟩ "ひ"
        { baseState with quiz := some sessionFire, timeouts := some 1 }).nextDelay
      = some (max 0 ((1 : ℤ) * 60 - (50 - 40))) :=
  ⟨((c6_correct_answer_delay ⟨50, 0, true⟩ "ひ"
      { baseState with quiz := some sessionFire, timeouts := some 0 }
      sessionFire (by decide) (by decide)).1 rfl).1,
   (c6_correct_answer_delay ⟨50, 0, true⟩ "ひ"
      { baseState with quiz := some sessionFire, timeouts := some 1 }
      sessionFire (by decide) (by decide)).2 (by decide)⟩

/-- The state of a user whose stored sheet handle is the `None` written
by `load_user_settings` after a failed reconnection. -/
def brokenSheetState : BotState := { baseState with sheets := some .broken }

/-- The state of a user whose sheet is live but has no rows. -/
def emptySheetState : BotState := { baseState with sheets := some (.sheet []) }

/-- C8: evaluation of the code at the failing input.  With the stored
`None` sheet handle (`user_sheets[uid] = None`, written by
`load_user_settings` on a reconnection failure), `send_quiz_auto`
raises `AttributeError` from `None.get_all_records()` — nothing is
reported to the user — and the exception escapes `quiz_scheduler`, so
the scheduler loop does NOT continue to its next cycle; whereas an empty
source is reported (`sheet_empty`) with the state unchanged and the loop
continues, as the claim says. -/
theorem c8_source_failure_behaviour :
    send_quiz_auto ⟨100, 0, true⟩ brokenSheetState =
      ⟨brokenSheetState, [], .crash .attributeError, none⟩ ∧
    stepContinues (quiz_scheduler_step ⟨100, 0, true⟩ 600 5 brokenSheetState).2
      = false ∧
    send_quiz_auto ⟨100, 0, true⟩ emptySheetState =
      ⟨emptySheetState, [.sheetEmpty], .emptySheet, none⟩ ∧
    stepContinues (quiz_scheduler_step ⟨100, 0, true⟩ 600 5 emptySheetState).2
      = true := by
  refine ⟨by decide, by decide, by decide, by decide⟩

/-- C9 counterexample: a corrupted settings file holding valid JSON of
the wrong shape — here the two-byte file `[]` — is not caught by
`except (json.JSONDecodeError, ValueError)`: the `settings.get(...)`
call raises `AttributeError`, which propagates out of
`load_user_settings` as a crash instead of resetting and persisting
defaults. -/
theorem c9_counterexample :
    (load_user_settings (some (some (.arr []))) emptySettings
        (fun _ => false)).crashError = some .attributeError := by decide

/-- The parsed settings file of two users whose sheets must be
reconnected at load time. -/
def twoUserSheetFile : Json :=
  .obj [("sheets", .obj [("1", .str "urlA"), ("2", .str "urlB")])]

/-- C9 amended: a settings file whose corruption raises
`json.JSONDecodeError` is caught: at process start (in-memory settings
still the empty defaults) the handler persists those empty defaults and
no crash propagates; a file of valid non-object JSON instead crashes
(see the counterexample).  During load, a reconnection failure for one
user (here user 1, whose `urlA` the client cannot open) is handled
per-user: only that user's source is marked unavailable (`None`) and the
remaining users' settings still load. -/
theorem c9_amended_load_behaviour :
    (load_user_settings (some none) emptySettings
        (fun _ => false)).resetSizes = some (0, 0, 0, 0, 0) ∧
    (load_user_settings (some (some twoUserSheetFile)) emptySettings
        (fun url => decide (url = "urlB"))).loadedSheets =
      some [(1, none), (2, some "urlB")] := by
  refine ⟨by decide, by decide⟩

/-- C5 counterexample: from a state with an interval set and no pending
question — exactly the state of a user whose scheduler loop is sleeping
between questions — `start_quiz_schedule` submits a new `quiz_scheduler`
task, changes no state, and therefore submits yet another one when
invoked again: the second start spawns a second concurrent scheduler
loop instead of being a no-op. -/
theorem c5_counterexample :
    (start_quiz_schedule baseState).1 = baseState ∧
    (start_quiz_schedule baseState).2.1 = .started true ∧
    (start_quiz_schedule (start_quiz_schedule baseState).1).2.1 =
      .started true :=
  ⟨rfl, rfl, rfl⟩

/-- C5 amended: `start_quiz_schedule` keeps no record of running
scheduler loops; with an interval set it mutates nothing and submits a
new loop if and only if no quiz question is currently pending
(`user_id not in user_quiz`).  Hence starting again while a loop is
running but no question is pending spawns a second concurrent loop, and
the start is a no-op (no spawn) only while a question is pending. -/
theorem c5_start_not_idempotent (s : BotState) (i : ℕ)
    (hint : s.intervals = some i) :
    (start_quiz_schedule s).1 = s ∧
    (s.quiz = none →
        (start_quiz_schedule s).2.1 = .started true ∧
        (start_quiz_schedule ((start_quiz_schedule s).1)).2.1 = .started true) ∧
    (∀ q, s.quiz = some q → (start_quiz_schedule s).2.1 = .started false) := by
  have hstate : (start_quiz_schedule s).1 = s := start_quiz_schedule_state s
  refine ⟨hstate, ?_, ?_⟩
  · intro hnone
    constructor
    · unfold start_quiz_schedule
      rw [hint]
      simp [hnone]
    · rw [hstate]
      unfold start_quiz_schedule
      rw [hint]
      simp [hnone]
  · intro q hsome
    unfold start_quiz_schedule
    rw [hint]
    simp [hsome]

/-- C5 witness: the amended theorem at `baseState` (interval 5, no
pending question): both consecutive starts spawn a loop. -/
theorem c5_start_not_idempotent_witness :
    (start_quiz_schedule baseState).2.1 = .started true ∧
    (start_quiz_schedule ((start_quiz_schedule baseState).1)).2.1 =
      .started true :=
  (c5_start_not_idempotent baseState 5 rfl).2.1 rfl

/-- The state of a user who disabled auto-send (`stopquizauto`) and is
otherwise fully configured. -/
def autoOffState : BotState := { baseState with quizActive := false }

/-- C4 counterexample: with auto-send disabled the manual next-question
button press delivers nothing: its `send_quiz_auto` call returns at the
`user_quiz_active` guard, silently — no question message is sent. -/
theorem c4_counterexample :
    autoOffState.quizActive = false ∧
    ((handle_next_question_click ⟨100, 0, true⟩ autoOffState).2.map
        SendResult.outcome) = some .skippedInactive ∧
    ((handle_next_question_click ⟨100, 0, true⟩ autoOffState).2.map
        SendResult.msgs) = some [] := by
  refine ⟨by decide, by decide, by decide⟩

/-- C4 amended: `user_quiz_active = False` suppresses every delivery
routed through `send_quiz_auto`, the manually triggered next-question
press included — the press merely consumes the dispatched flag while the
suppressed call mutates nothing and sends nothing.  Manual delivery
succeeds again only once auto-send is re-enabled; in particular the
`quiz` button sets the flag back to true before starting the
schedule. -/
theorem c4_auto_off_suppresses_manual (env : Env) (s : BotState)
    (h : s.quizActive = false) :
    send_quiz_auto env s = ⟨s, [], .skippedInactive, none⟩ ∧
    (s.nextQuizSent = false →
      handle_next_question_click env s =
        ({ s with nextQuizSent := true },
         some ⟨{ s with nextQuizSent := true }, [], .skippedInactive, none⟩)) ∧
    (handle_command_quiz s).1.quizActive = true := by
  have hsend : ∀ s' : BotState, s'.quizActive = false →
      send_quiz_auto env s' = ⟨s', [], .skippedInactive, none⟩ := by
    intro s' h'
    unfold send_quiz_auto
    simp [h']
  refine ⟨hsend s h, ?_, ?_⟩
  · intro hflag
    unfold handle_next_question_click
    rw [hsend { s with nextQuizSent := true } h]
    simp [hflag]
  · unfold handle_command_quiz
    rw [start_quiz_schedule_state]

/-- C4 witness: the amended theorem at `autoOffState`: the suppressed
manual press and the re-enabling `quiz` button, concretely. -/
theorem c4_auto_off_suppresses_manual_witness :
    handle_next_question_click ⟨100, 0, true⟩ autoOffState =
      ({ autoOffState with nextQuizSent := true },
       some ⟨{ autoOffState with nextQuizSent := true }, [],
             .skippedInactive, none⟩) ∧
    (handle_command_quiz autoOffState).1.quizActive = true :=
  ⟨(c4_auto_off_suppresses_manual ⟨100, 0, true⟩ autoOffState
      (by decide)).2.1 (by decide),
   (c4_auto_off_suppresses_manual ⟨100, 0, true⟩ autoOffState
      (by decide)).2.2⟩

/-- `baseState` with the 22:00-07:00 quiet window configured. -/
def quietConfState : BotState :=
  { baseState with quietInterval := some (1320, 420) }

/-- `quietConfState` with auto-send disabled. -/
def quietWrapOffState : BotState := { quietConfState with quizActive := false }

/-- C7 counterexample: at 10:00 (non-quiet for the wrapping 22:00-07:00
window) the scheduler iteration calls `send_quiz_auto` and then sleeps
`interval * 60` seconds, but no question is delivered and no message is
sent, because auto-send is disabled for the user — "a question is
delivered" does not hold of every non-quiet iteration. -/
theorem c7_counterexample :
    quietHolds 1320 420 600 = false ∧
    (quiz_scheduler_step ⟨100, 0, true⟩ 600 15 quietWrapOffState).2 =
      .ran ⟨quietWrapOffState, [], .skippedInactive, none⟩ 900 := by
  refine ⟨by decide, by decide⟩

/-- C7 amended: with a configured quiet window, an iteration is quiet
exactly per the wrap-around rule (`start ≤ end`: quiet iff
`start ≤ now ≤ end`; otherwise iff `now ≥ start` or `now ≤ end`).  A
quiet iteration delivers nothing and waits the fixed 60-second poll
without consuming the interval; a non-quiet iteration invokes
`send_quiz_auto` and then sleeps `intervalMinutes * 60`, and the
invocation delivers a question provided the delivery-side guards pass
(auto-send enabled, no pending question, no cooldown, sheet set and
nonempty). -/
theorem c7_quiet_window_rule (env : Env)
    (nowTod interval quiet_start quiet_end : ℕ) (s : BotState)
    (hiv : s.intervals.isSome = true)
    (hqw : s.quietInterval = some (quiet_start, quiet_end)) :
    (quietHolds quiet_start quiet_end nowTod = true ↔
      (if quiet_start ≤ quiet_end then
        quiet_start ≤ nowTod ∧ nowTod ≤ quiet_end
       else nowTod ≥ quiet_start ∨ nowTod ≤ quiet_end)) ∧
    (quietHolds quiet_start quiet_end nowTod = true →
      quiz_scheduler_step env nowTod interval s = (s, .quietWait 60)) ∧
    (quietHolds quiet_start quiet_end nowTod = false →
      quiz_scheduler_step env nowTod interval s =
        ((send_quiz_auto env s).state,
         .ran (send_quiz_auto env s) (interval * 60)) ∧
      (s.quizActive = true → s.quiz = none → s.lastQuizSent = none →
        ∀ data, s.sheets = some (.sheet data) → data ≠ [] →
          ∃ q, (send_quiz_auto env s).outcome = .delivered q)) := by
  obtain ⟨i, hi⟩ := Option.isSome_iff_exists.mp hiv
  refine ⟨?_, ?_, ?_⟩
  · unfold quietHolds
    by_cases hc : quiet_start ≤ quiet_end
    · simp [hc]
    · simp [hc]
  · intro hquiet
    unfold quiz_scheduler_step
    simp [hi, hqw, hquiet]
  · intro hnotquiet
    constructor
    · unfold quiz_scheduler_step
      simp [hi, hqw, hnotquiet]
    · intro hact hqz hlast data hsheets hdata
      rcases data with _ | ⟨r, rest⟩
      · exact absurd rfl hdata
      · unfold send_quiz_auto send_quiz_auto.afterCooldown
        simp only [hact, hqz, hlast, hsheets, Option.isSome_none, Bool.not_true,
          Bool.false_eq_true, if_false, dite_false, List.isEmpty_cons,
          not_true_eq_false, ite_false]
        split
        · exact ⟨_, rfl⟩
        · exact ⟨_, rfl⟩

/-- C7 witness: the amended theorem at `quietConfState` (window
22:00-07:00).  At 23:00 the iteration is quiet: no send, 60-second poll;
at 10:00 it is not quiet and, since `quietConfState` passes every
delivery guard, a question is delivered. -/
theorem c7_quiet_window_rule_witness :
    quiz_scheduler_step ⟨100, 0, true⟩ 1380 5 quietConfState =
      (quietConfState, .quietWait 60) ∧
    (∃ q, (send_quiz_auto ⟨100, 0, true⟩ quietConfState).outcome =
      .delivered q) :=
  ⟨(c7_quiet_window_rule ⟨100, 0, true⟩ 1380 5 1320 420 quietConfState
      (by decide) (by decide)).2.1 (by decide),
   ((c7_quiet_window_rule ⟨100, 0, true⟩ 600 5 1320 420 quietConfState
      (by decide) (by decide)).2.2 (by decide)).2 rfl rfl rfl
     [recWater] (by decide) (by decide)⟩

/-- Within the cooldown window (`time.time() - last_quiz_sent[u] <
SEND_QUIZ_COOLDOWN`), `send_quiz_auto` is a silent no-op: state
unchanged, no message, no delivery. -/
theorem send_quiz_auto_cooldown_noop (env : Env) (s : BotState) (t : ℤ)
    (ht : s.lastQuizSent = some t)
    (hlt : env.now - t < SEND_QUIZ_COOLDOWN) :
    (send_quiz_auto env s).state = s ∧ (send_quiz_auto env s).msgs = [] ∧
    ∀ q, (send_quiz_auto env s).outcome ≠ .delivered q := by
  unfold send_quiz_auto
  split
  · exact ⟨rfl, rfl, by simp⟩
  · split
    · exact ⟨rfl, rfl, by simp⟩
    · split
      · split
        · exact ⟨rfl, rfl, by simp⟩
        · rename_i hnot
          simp only [ht, Option.get_some] at hnot
          exact absurd hlt hnot
      · rename_i hnone
        rw [ht] at hnone
        simp at hnone

/-- A delivery by `send_quiz_auto` stamps `last_quiz_sent` with the
current time and can only have happened at least `SEND_QUIZ_COOLDOWN`
seconds after the previous delivery. -/
theorem send_quiz_auto_delivered_cooldown (env : Env) (s : BotState)
    (q : QuizSession) (h : (send_quiz_auto env s).outcome = .delivered q) :
    (send_quiz_auto env s).state.lastQuizSent = some env.now ∧
    ∀ t, s.lastQuizSent = some t → SEND_QUIZ_COOLDOWN ≤ env.now - t := by
  rcases hr : send_quiz_auto env s with ⟨st, ms, oc, wd⟩
  rw [hr] at h
  dsimp only at h ⊢
  unfold send_quiz_auto send_quiz_auto.afterCooldown at hr
  split at hr
  · injection hr with h1 h2 h3 h4
    rw [← h3] at h; simp at h
  · split at hr
    · injection hr with h1 h2 h3 h4
      rw [← h3] at h; simp at h
    · split at hr
      · split at hr
        · injection hr with h1 h2 h3 h4
          rw [← h3] at h; simp at h
        · rename_i hsome hnot
          have hcool : ∀ t, s.lastQuizSent = some t →
              SEND_QUIZ_COOLDOWN ≤ env.now - t := by
            intro t ht
            simp only [ht, Option.get_some] at hnot
            exact le_of_not_lt hnot
          refine ⟨?_, hcool⟩
          split at hr
          · injection hr with h1 h2 h3 h4; rw [← h3] at h; simp at h
          · injection hr with h1 h2 h3 h4; rw [← h3] at h; simp at h
          · split at hr
            · injection hr with h1 h2 h3 h4; rw [← h3] at h; simp at h
            · dsimp only at hr
              split at hr
              · injection hr with h1 h2 h3 h4; rw [← h1]
              · injection hr with h1 h2 h3 h4; rw [← h1]
      · rename_i hnone
        have hcool : ∀ t, s.lastQuizSent = some t →
            SEND_QUIZ_COOLDOWN ≤ env.now - t := by
          intro t ht
          rw [ht] at hnone
          simp at hnone
        refine ⟨?_, hcool⟩
        split at hr
        · injection hr with h1 h2 h3 h4; rw [← h3] at h; simp at h
        · injection hr with h1 h2 h3 h4; rw [← h3] at h; simp at h
        · split at hr
          · injection hr with h1 h2 h3 h4; rw [← h3] at h; simp at h
          · dsimp only at hr
            split at hr
            · injection hr with h1 h2 h3 h4; rw [← h1]
            · injection hr with h1 h2 h3 h4; rw [← h1]

/-- The session asked at time 0 of a user whose configured timeout is 0. -/
def askedAtZero : BotState :=
  { baseState with timeouts := some 0,
                   quiz := some ⟨"水", "みず", "water", "reading", 0⟩,
                   lastQuizSent := some 0 }

/-- C10 counterexample: a "deliver next" scheduled with the fixed
2-second delay is NOT always dropped.  The question was delivered at
time 0, correctly answered at time 10 (timeout 0, so the next delivery
is scheduled 2 seconds out), and when `wait_and_send_next` wakes at time
12 the cooldown (measured from the last DELIVERY, not from the
resolution) is already over — `12 − 0 ≥ 5` — so the next question is
delivered, not dropped. -/
theorem c10_counterexample :
    (check_answer ⟨10, 0, true⟩ "みず" askedAtZero).nextDelay = some 2 ∧
    (2 : ℤ) < SEND_QUIZ_COOLDOWN ∧
    ((wait_and_send_next ⟨12, 0, true⟩
        (check_answer ⟨10, 0, true⟩ "みず" askedAtZero).state).2.map
      SendResult.outcome) =
      some (.delivered ⟨"水", "みず", "water", "reading", 12⟩) := by
  refine ⟨by decide, by decide, by decide⟩

/-- C10 amended: whenever fewer than `SEND_QUIZ_COOLDOWN = 5` seconds
have passed since the user's last delivery, `send_quiz_auto` is a silent
no-op (state unchanged, no message, nothing delivered); every delivery
stamps `last_quiz_sent`, so no two questions reach the same user less
than 5 seconds apart; and a scheduled "deliver next" that reaches
`send_quiz_auto` (through `wait_and_send_next`) is dropped by the
cooldown exactly when its wake-up time falls within 5 seconds of the
last delivery — which a short scheduled delay does not guarantee, since
the cooldown is measured from the last delivery, not from the
resolution that scheduled it. -/
theorem c10_cooldown_suppression (env : Env) (s : BotState) :
    (∀ t, s.lastQuizSent = some t → env.now - t < SEND_QUIZ_COOLDOWN →
      (send_quiz_auto env s).state = s ∧
      (send_quiz_auto env s).msgs = [] ∧
      ∀ q, (send_quiz_auto env s).outcome ≠ .delivered q) ∧
    (∀ q, (send_quiz_auto env s).outcome = .delivered q →
      (send_quiz_auto env s).state.lastQuizSent = some env.now ∧
      ∀ t, s.lastQuizSent = some t → SEND_QUIZ_COOLDOWN ≤ env.now - t) ∧
    (∀ t r, s.lastQuizSent = some t → (wait_and_send_next env s).2 = some r →
      ∀ q, r.outcome = .delivered q → SEND_QUIZ_COOLDOWN ≤ env.now - t) := by
  refine ⟨?_, ?_, ?_⟩
  · intro t ht hlt
    exact send_quiz_auto_cooldown_noop env s t ht hlt
  · intro q h
    exact send_quiz_auto_delivered_cooldown env s q h
  · intro t r ht hw q hq
    unfold wait_and_send_next at hw
    split at hw
    · have hr : r = send_quiz_auto env { s with nextQuizSent := true } := by
        dsimp only at hw
        injection hw with h1
        exact h1.symm
      rw [hr] at hq
      exact (send_quiz_auto_delivered_cooldown env
        { s with nextQuizSent := true } q hq).2 t ht
    · simp at hw

/-- C10 witness: the amended theorem at a concrete state.  At time 3,
only 3 seconds after the delivery at time 0, `send_quiz_auto` is a
silent no-op on the idle user; and the delivery that does happen at time
12 is at least 5 seconds after the one at time 0. -/
theorem c10_cooldown_suppression_witness :
    (send_quiz_auto ⟨3, 0, true⟩ { baseState with lastQuizSent := some 0 }).state
      = { baseState with lastQuizSent := some 0 } ∧
    (send_quiz_auto ⟨3, 0, true⟩ { baseState with lastQuizSent := some 0 }).msgs
      = [] ∧
    SEND_QUIZ_COOLDOWN ≤ (12 : ℤ) - 0 :=
  ⟨((c10_cooldown_suppression ⟨3, 0, true⟩
      { baseState with lastQuizSent := some 0 }).1 0 rfl (by decide)).1,
   ((c10_cooldown_suppression ⟨3, 0, true⟩
      { baseState with lastQuizSent := some 0 }).1 0 rfl (by decide)).2.1,
   ((c10_cooldown_suppression ⟨12, 0, true⟩
      { baseState with lastQuizSent := some 0 }).2.1
      ⟨"水", "みず", "water", "reading", 12⟩ (by decide)).2 0 rfl⟩

/-- The question type attached to a session delivered by
`send_quiz_auto.afterCooldown` is exactly the mode-and-coin
computation of the source: the preference string, or the coin flip
between `"reading"` and `"meaning"` when the preference is absent or
`"random"`. -/
theorem afterCooldown_delivered_type (env : Env) (s : BotState)
    (q : QuizSession)
    (h : (send_quiz_auto.afterCooldown env s).outcome = .delivered q) :
    q.type = (if s.preferences.getD "random" = "random" then
                (if env.coinReading then "reading" else "meaning")
              else s.preferences.getD "random") := by
  unfold send_quiz_auto.afterCooldown at h
  split at h
  · simp at h
  · simp at h
  · split at h
    · simp at h
    · dsimp only at h
      split at h
      · dsimp only at h
        injection h with hqq
        rw [← hqq]
      · dsimp only at h
        injection h with hqq
        rw [← hqq]

/-- Lifting of `afterCooldown_delivered_type` through the three silent
guards of `send_quiz_auto`. -/
theorem send_quiz_auto_delivered_type (env : Env) (s : BotState)
    (q : QuizSession) (h : (send_quiz_auto env s).outcome = .delivered q) :
    q.type = (if s.preferences.getD "random" = "random" then
                (if env.coinReading then "reading" else "meaning")
              else s.preferences.getD "random") := by
  unfold send_quiz_auto at h
  split at h
  · simp at h
  · split at h
    · simp at h
    · split at h
      · split at h
        · simp at h
        · exact afterCooldown_delivered_type env s q h
      · exact afterCooldown_delivered_type env s q h

/-- C3: for a session created by `send_quiz_auto` under any preference
the mode buttons can set (`reading`, `meaning`, `random`, or no
preference at all), the question type lies in the claim's four-element
set — in fact always in `{reading, meaning}`: the code never generates a
reverse type, so the claim's reverse clause holds vacuously — and the
accepted-answer base `quiz_data[quiz_data["type"]]` is the reading field
for reading questions and the meaning field for meaning questions. -/
theorem c3_question_type_and_answers (env : Env) (s : BotState)
    (q : QuizSession)
    (hmode : s.preferences = none ∨ s.preferences = some "reading" ∨
      s.preferences = some "meaning" ∨ s.preferences = some "random")
    (h : (send_quiz_auto env s).outcome = .delivered q) :
    (q.type = "reading" ∨ q.type = "meaning") ∧
    (q.type = "reading" ∨ q.type = "meaning" ∨
     q.type = "reverse_reading" ∨ q.type = "reverse_meaning") ∧
    ((q.type = "reverse_reading" ∨ q.type = "reverse_meaning") →
      fieldOf q q.type = some q.kanji) ∧
    (q.type = "reading" → fieldOf q q.type = some q.reading) ∧
    (q.type = "meaning" → fieldOf q q.type = some q.meaning) := by
  have htype := send_quiz_auto_delivered_type env s q h
  have hrm : q.type = "reading" ∨ q.type = "meaning" := by
    rcases hmode with hp | hp | hp | hp <;> rw [hp] at htype
    · simp only [Option.getD_none, if_true] at htype
      by_cases hc : env.coinReading = true
      · rw [if_pos hc] at htype; exact Or.inl htype
      · rw [if_neg hc] at htype; exact Or.inr htype
    · simp only [Option.getD_some] at htype
      rw [if_neg (by decide)] at htype
      exact Or.inl htype
    · simp only [Option.getD_some] at htype
      rw [if_neg (by decide)] at htype
      exact Or.inr htype
    · simp only [Option.getD_some, if_true] at htype
      by_cases hc : env.coinReading = true
      · rw [if_pos hc] at htype; exact Or.inl htype
      · rw [if_neg hc] at htype; exact Or.inr htype
  refine ⟨hrm, ?_, ?_, ?_, ?_⟩
  · rcases hrm with h1 | h1
    · exact Or.inl h1
    · exact Or.inr (Or.inl h1)
  · intro hrev
    rcases hrm with h1 | h1 <;> rcases hrev with h2 | h2 <;>
      rw [h1] at h2 <;> exact absurd h2 (by decide)
  · intro h1
    rw [h1]
    unfold fieldOf
    rw [if_neg (by decide), if_pos rfl]
  · intro h1
    rw [h1]
    unfold fieldOf
    rw [if_neg (by decide), if_neg (by decide), if_pos rfl]

/-- The session `send_quiz_auto` creates from `baseState` at time 100. -/
def deliveredAt100 : QuizSession := ⟨"水", "みず", "water", "reading", 100⟩

/-- C3 witness: the theorem at `baseState` (mode `reading`) and the
session it delivers at time 100. -/
theorem c3_question_type_and_answers_witness :
    (deliveredAt100.type = "reading" ∨ deliveredAt100.type = "meaning") ∧
    ((deliveredAt100.type = "reverse_reading" ∨
      deliveredAt100.type = "reverse_meaning") →
      fieldOf deliveredAt100 deliveredAt100.type = some deliveredAt100.kanji) ∧
    (deliveredAt100.type = "reading" →
      fieldOf deliveredAt100 deliveredAt100.type = some deliveredAt100.reading) :=
  ⟨(c3_question_type_and_answers ⟨100, 0, true⟩ baseState deliveredAt100
      (Or.inr (Or.inl (by decide))) (by decide)).1,
   (c3_question_type_and_answers ⟨100, 0, true⟩ baseState deliveredAt100
      (Or.inr (Or.inl (by decide))) (by decide)).2.2.1,
   (c3_question_type_and_answers ⟨100, 0, true⟩ baseState deliveredAt100
      (Or.inr (Or.inl (by decide))) (by decide)).2.2.2.1⟩

/-- A resolved-and-dispatched situation in which the timeout actor runs:
the dispatched flag `user_next_quiz_sent` is already `True`, a session
is live, and its watchdog is active. -/
def dispatchedTimeoutState : BotState :=
  { baseState with quiz := some sessionFire, nextQuizSent := true,
                   timeoutsActive := true, lastQuizSent := some 40 }

/-- C1 counterexample: the timeout path does NOT consult the
per-resolution dispatched flag.  With `user_next_quiz_sent` already
`True`, `handle_timeout` still resolves the session and delivers the
next question (message and all) — it is not a no-op losing actor, so
"every actor that may deliver consults the dispatched flag" is false of
the code. -/
theorem c1_counterexample :
    dispatchedTimeoutState.nextQuizSent = true ∧
    (handle_timeout ⟨100, 0, true⟩ dispatchedTimeoutState).msgs =
      [.timeoutMessage "ひ", .readingQuestion "水"] ∧
    ((handle_timeout ⟨100, 0, true⟩ dispatchedTimeoutState).send.map
        SendResult.outcome) =
      some (.delivered ⟨"水", "みず", "water", "reading", 102⟩) := by
  refine ⟨by decide, by decide, by decide⟩

/-- C1 amended: only the post-answer delay task (`wait_and_send_next`)
and the manual next-question button consult the per-resolution
dispatched flag `user_next_quiz_sent`: each is a strict no-op when the
flag is set, and whichever of the two runs first sets the flag, making
every later run of either a no-op — so at most one of those two actors
dispatches per resolution.  The timeout path, by contrast, never reads
the flag: after a session it resolves, it invokes delivery
unconditionally. -/
theorem c1_dispatch_flag (env env2 : Env) (s : BotState) :
    (s.nextQuizSent = true → wait_and_send_next env s = (s, none)) ∧
    (s.nextQuizSent = true → handle_next_question_click env s = (s, none)) ∧
    (∀ s1 r1, wait_and_send_next env s = (s1, some r1) →
      wait_and_send_next env2 s1 = (s1, none) ∧
      handle_next_question_click env2 s1 = (s1, none)) ∧
    (∀ q, s.quiz = some q → q.type = "reading" →
      ((handle_timeout env s).send).isSome = true) := by
  refine ⟨?_, ?_, ?_, ?_⟩
  · intro hf
    unfold wait_and_send_next
    simp [hf]
  · intro hf
    unfold handle_next_question_click
    simp [hf]
  · intro s1 r1 hw
    unfold wait_and_send_next at hw
    split at hw
    · dsimp only at hw
      have hs1 : s1 = (send_quiz_auto env { s with nextQuizSent := true }).state := by
        injection hw with h1 h2
        exact h1.symm
      have hflag : s1.nextQuizSent = true := by
        rw [hs1, send_quiz_auto_nextQuizSent]
      constructor
      · unfold wait_and_send_next
        simp [hflag]
      · unfold handle_next_question_click
        simp [hflag]
    · simp [Prod.ext_iff] at hw
  · intro q hq ht
    have hf : fieldOf q q.type = some q.reading := by
      rw [ht]
      unfold fieldOf
      rw [if_neg (by decide), if_pos rfl]
    simp [handle_timeout, hq, hf]

/-- C1 witness: the amended theorem at `dispatchedTimeoutState`: the
delay task is a no-op there (flag set), while the timeout path still
invokes delivery. -/
theorem c1_dispatch_flag_witness :
    wait_and_send_next ⟨100, 0, true⟩ dispatchedTimeoutState =
      (dispatchedTimeoutState, none) ∧
    ((handle_timeout ⟨100, 0, true⟩ dispatchedTimeoutState).send).isSome
      = true :=
  ⟨(c1_dispatch_flag ⟨100, 0, true⟩ ⟨100, 0, true⟩ dispatchedTimeoutState).1
      (by decide),
   (c1_dispatch_flag ⟨100, 0, true⟩ ⟨100, 0, true⟩ dispatchedTimeoutState).2.2.2
      sessionFire (by decide) (by decide)⟩

/-- The per-user shared state while `sessionFire` (created at 40) is
live and its watchdog is running. -/
def watchdogStateA : BotState :=
  { baseState with quiz := some sessionFire, timeoutsActive := true,
                   lastQuizSent := some 40 }

/-- The same user after `sessionFire` was resolved and replaced by
`sessionWater97` (created at 97), whose own watchdog is running. -/
def watchdogStateB : BotState :=
  { baseState with quiz := some sessionWater97, timeoutsActive := true,
                   lastQuizSent := some 97 }

/-- The observations of a watchdog whose user answered before poll 1
and had no new question delivered yet: a cancellation run. -/
def gapObs : ℕ → BotState :=
  fun i => if i = 0 then watchdogStateA else baseState

/-- The states a watchdog spawned for `sessionFire` observes at its
1-second polls: the old session at polls up to 1, the replacement
session from poll 2 on — the replacement happened inside one poll
interval. -/
def staleObs : ℕ → BotState :=
  fun i => if i ≤ 1 then watchdogStateA else watchdogStateB

/-- C2 counterexample: a watchdog started while `sessionFire` (creation
time 40) was the live session fires and resolves `sessionWater97`
(creation time 97), a LATER session instance of the same user — it
reveals みず, the later session's answer.  Its checks are keyed on the
user id alone (`user_id in user_quiz` and the per-user
`user_timeouts_active` flag), never on the session's identity. -/
theorem c2_counterexample :
    (staleObs 0).quiz = some sessionFire ∧
    (staleObs 2).quiz = some sessionWater97 ∧
    sessionWater97.start_time ≠ sessionFire.start_time ∧
    handle_timeout_check ⟨100, 0, true⟩ 2 staleObs =
      .fired (handle_timeout ⟨100, 0, true⟩ watchdogStateB) ∧
    (handle_timeout ⟨100, 0, true⟩ watchdogStateB).msgs.head? =
      some (.timeoutMessage "みず") := by
  refine ⟨by decide, by decide, by decide, by decide, by decide⟩

/-- C2 amended: `handle_timeout_check` is keyed on the user alone.  It
cancels exactly when some 1-second poll finds the user without a live
session; when it fires, every poll saw some session for the user, and
what it resolves is whatever session the user holds at expiry (with the
per-user `user_timeouts_active` flag set) — whether or not that is the
session instance the watchdog was started for.  A stale watchdog is
harmless only in the runs where some poll observes the gap between the
old and the new session. -/
theorem c2_watchdog_keys_on_user (env : Env) (timeout : ℕ)
    (observe : ℕ → BotState) :
    (∀ i, 1 ≤ i → i ≤ timeout → (observe i).quiz = none →
      ∃ j, 1 ≤ j ∧ j ≤ timeout ∧ (observe j).quiz = none ∧
        handle_timeout_check env timeout observe = .cancelledAt j) ∧
    (∀ t, handle_timeout_check env timeout observe = .fired t →
      (∀ i, 1 ≤ i → i ≤ timeout → (observe i).quiz.isSome = true) ∧
      (observe timeout).quiz.isSome = true ∧
      (observe timeout).timeoutsActive = true ∧
      t = handle_timeout env (observe timeout)) := by
  constructor
  · intro i h1 h2 hnone
    have hmem : i ∈ (List.range timeout).map (fun k => k + 1) := by
      simp only [List.mem_map, List.mem_range]
      exact ⟨i - 1, by omega, by omega⟩
    have hsome : (firstCancelPoll timeout observe).isSome = true := by
      unfold firstCancelPoll
      rw [List.find?_isSome]
      exact ⟨i, hmem, by simp [hnone]⟩
    obtain ⟨j, hj⟩ := Option.isSome_iff_exists.mp hsome
    have hj2 := hj
    unfold firstCancelPoll at hj2
    have hpj : ((observe j).quiz).isNone = true := by
      simpa using List.find?_some hj2
    have hjmem := List.mem_of_find?_eq_some hj2
    simp only [List.mem_map, List.mem_range] at hjmem
    obtain ⟨k, hk, hki⟩ := hjmem
    refine ⟨j, by omega, by omega, Option.isNone_iff_eq_none.mp hpj, ?_⟩
    unfold handle_timeout_check
    rw [hj]
  · intro t hft
    unfold handle_timeout_check at hft
    cases hfind : firstCancelPoll timeout observe with
    | some j =>
      rw [hfind] at hft
      simp at hft
    | none =>
      rw [hfind] at hft
      dsimp only at hft
      split at hft
      · rename_i hcond
        injection hft with hres
        refine ⟨?_, hcond.1, hcond.2, hres.symm⟩
        intro i h1 h2
        have hmem : i ∈ (List.range timeout).map (fun k => k + 1) := by
          simp only [List.mem_map, List.mem_range]
          exact ⟨i - 1, by omega, by omega⟩
        have hfnone := hfind
        unfold firstCancelPoll at hfnone
        have hni := List.find?_eq_none.mp hfnone i hmem
        rcases hcase : (observe i).quiz with _ | v
        · exact absurd (by simp [hcase]) hni
        · simp [hcase]
      · simp at hft

/-- C2 witness: the amended theorem on a run in which poll 1 observes
the user with no session: the watchdog cancels and resolves nothing. -/
theorem c2_watchdog_keys_on_user_witness :
    ∃ j, 1 ≤ j ∧ j ≤ 3 ∧ (gapObs j).quiz = none ∧
      handle_timeout_check ⟨100, 0, true⟩ 3 gapObs = .cancelledAt j :=
  (c2_watchdog_keys_on_user ⟨100, 0, true⟩ 3 gapObs).1 1 (by decide)
    (by decide) (by decide)


end QuizBot
